import Mathlib

/-!
Shallow embedding of `src/xinshuo_math/python/bbox_transform.py`.

Boxes are rows of an N×4 numeric matrix; every box function in the source
operates row-wise, so a row is embedded as a `Box4` of rationals (exact
arithmetic standing for the numpy floating-point values) and matrix-level
functions act on `List Box4`.  Functions whose `debug=True` path asserts a
precondition are embedded as `Except BoxError _`: a failed assertion is the
error the specification's taxonomy names for it.

The helpers `safe_bbox`, `bboxcheck_TLBR`, `bboxcheck_TLWH`
(`private.py`) and `isinteger` (`xinshuo_miscellaneous`) are not part of the
sources; they are modelled from the specification where noted.
-/

namespace BboxTransform

/-- One row of an N×4 box matrix.  For TLBR boxes the fields are
(x1, y1, x2, y2); for TLWH boxes the same four slots hold (x, y, w, h). -/
structure Box4 where
  x1 : ℚ
  y1 : ℚ
  x2 : ℚ
  y2 : ℚ
deriving DecidableEq, Repr

/-- Errors of the specification's taxonomy that the embedded functions can
signal, plus the numpy `ValueError` raised by truth-testing an array of more
than one element (Python's builtin `max` on arrays does exactly that). -/
inductive BoxError where
  | invalidImageSize
  | invalidBoxFormat
  | ambiguousTruthValue
deriving DecidableEq, Repr

/-- Modelled from the spec: `bboxcheck_TLBR` (in `private.py`, not under
`src/`) validates the TLBR ordering invariant x1 ≤ x2 and y1 ≤ y2
(spec §3, §4.1). -/
def bboxcheck_TLBR (b : Box4) : Bool :=
  decide (b.x1 ≤ b.x2) && decide (b.y1 ≤ b.y2)

/-- Modelled from the spec: `bboxcheck_TLWH` (in `private.py`, not under
`src/`) validates the TLWH invariant w ≥ 0 and h ≥ 0 (spec §3). -/
def bboxcheck_TLWH (b : Box4) : Bool :=
  decide (0 ≤ b.x2) && decide (0 ≤ b.y2)

/-- Modelled from the spec: the image-size validity check behind
`isinteger` (in `xinshuo_miscellaneous`, not under `src/`): an image
dimension must be a non-negative integer; violation signals
`InvalidImageSize` (spec §4.2, §7). -/
def isinteger (q : ℚ) : Bool :=
  (q.den == 1) && decide (0 ≤ q)

/-- Lines 36-41: the arithmetic of `bbox_TLBR2TLWH` applied to one row:
x and y are copied, w = x2 − x1, h = y2 − y1. -/
def bbox_TLBR2TLWH_core (b : Box4) : Box4 :=
  ⟨b.x1, b.y1, b.x2 - b.x1, b.y2 - b.y1⟩

/-- Lines 22-41, `debug=True`: `bbox_TLBR2TLWH` asserts `bboxcheck_TLBR`
before converting. -/
def bbox_TLBR2TLWH (b : Box4) : Except BoxError Box4 :=
  if bboxcheck_TLBR b then .ok (bbox_TLBR2TLWH_core b) else .error .invalidBoxFormat

/-- Lines 57-62: the arithmetic of `bbox_TLWH2TLBR` applied to one row:
x and y are copied, x2 = w + x, y2 = h + y. -/
def bbox_TLWH2TLBR_core (b : Box4) : Box4 :=
  ⟨b.x1, b.y1, b.x2 + b.x1, b.y2 + b.y1⟩

/-- Lines 43-62, `debug=True`: `bbox_TLWH2TLBR` asserts `bboxcheck_TLWH`
before converting. -/
def bbox_TLWH2TLBR (b : Box4) : Except BoxError Box4 :=
  if bboxcheck_TLWH b then .ok (bbox_TLWH2TLBR_core b) else .error .invalidBoxFormat

/-- Lines 82-87: the clipping arithmetic of `clip_bboxes_TLBR` on one row:
each x-coordinate is clamped into [0, im_width] and each y-coordinate into
[0, im_height] by `np.maximum(np.minimum(·, bound), 0)`. -/
def clip_bboxes_TLBR_core (b : Box4) (im_width im_height : ℚ) : Box4 :=
  ⟨max (min b.x1 im_width) 0, max (min b.y1 im_height) 0,
   max (min b.x2 im_width) 0, max (min b.y2 im_height) 0⟩

/-- Lines 65-87, `debug=True`: `clip_bboxes_TLBR` first asserts
`isinteger` on both image dimensions, then `bboxcheck_TLBR`, and only then
clips. -/
def clip_bboxes_TLBR (b : Box4) (im_width im_height : ℚ) : Except BoxError Box4 :=
  if ¬ (isinteger im_width && isinteger im_height) then .error .invalidImageSize
  else if ¬ bboxcheck_TLBR b then .error .invalidBoxFormat
  else .ok (clip_bboxes_TLBR_core b im_width im_height)

/-- Lines 89-109, `debug=True`: `clip_bboxes_TLWH` asserts `isinteger` on
both image dimensions and `bboxcheck_TLWH` on the box, then converts to
TLBR, clips, and converts back. -/
def clip_bboxes_TLWH (b : Box4) (im_width im_height : ℚ) : Except BoxError Box4 :=
  if ¬ (isinteger im_width && isinteger im_height) then .error .invalidImageSize
  else if ¬ bboxcheck_TLWH b then .error .invalidBoxFormat
  else do
    let t ← bbox_TLWH2TLBR b
    let c ← clip_bboxes_TLBR t im_width im_height
    bbox_TLBR2TLWH c

/-- numpy `astype('int64')` on a floating value: truncation toward zero. -/
def int64_trunc (q : ℚ) : ℤ :=
  if 0 ≤ q then ⌊q⌋ else ⌈q⌉

/-- Python 2 `/` applied to integers (the file runs under Python 2:
`xrange` at line 373 and no `__future__` division import): floor
division. -/
def py2_idiv (a b : ℤ) : ℤ :=
  ⌊(a : ℚ) / (b : ℚ)⌋

/-- Lines 111-144, the 2-element branch of `get_center_crop_bbox`
(`np_center_bboxes.shape[1] == 2` with image dimensions supplied), for
integer-typed inputs: under Python 2, `im_width / 2` and
`crop_width / 2` floor-divide before `np.ceil` is applied, so the ceil
acts on an already-integral quotient; the top-left is the center minus
that per-axis quantity, and the stacked (xmin, ymin, crop_width,
crop_height) row is cast with `astype('int64')` (truncation toward
zero). -/
def get_center_crop_bbox2 (crop_width crop_height im_width im_height : ℤ) :
    ℤ × ℤ × ℤ × ℤ :=
  let center_x : ℚ := (⌈((py2_idiv im_width 2 : ℤ) : ℚ)⌉ : ℤ)
  let center_y : ℚ := (⌈((py2_idiv im_height 2 : ℤ) : ℚ)⌉ : ℤ)
  let xmin := center_x - ((⌈((py2_idiv crop_width 2 : ℤ) : ℚ)⌉ : ℤ) : ℚ)
  let ymin := center_y - ((⌈((py2_idiv crop_height 2 : ℤ) : ℚ)⌉ : ℤ) : ℚ)
  (int64_trunc xmin, int64_trunc ymin,
   int64_trunc (crop_width : ℚ), int64_trunc (crop_height : ℚ))

/-- Python's builtin `max(a, b)` applied to two numpy arrays of equal
length: it truth-tests the elementwise comparison `b > a`, which succeeds
only for arrays of at most one element (numpy raises
`ValueError: The truth value of an array with more than one element is
ambiguous`) and then yields one of the two whole arrays — elementwise `max`
in the surviving cases. -/
def python_max_np (a b : List ℚ) : Except BoxError (List ℚ) :=
  if a.length ≤ 1 && b.length ≤ 1 then .ok (List.zipWith max a b)
  else .error .ambiguousTruthValue

/-- Lines 409-442, `debug=True`: the values `bbox_enlarge` computes on an
N×4 TLBR matrix — the enlarged rows, or the error of the failing step. -/
def bbox_enlarge_out (bbox : List Box4) (ratio : ℚ)
    (width_ratio height_ratio : Option ℚ) (min_length : ℚ)
    (min_width min_height : Option ℚ) :
    Except BoxError (List Box4) :=
  if ¬ bbox.all bboxcheck_TLBR then .error .invalidBoxFormat
  else do
    let width := match width_ratio, height_ratio with
      | some wr, some _ => bbox.map (fun b => (b.x2 - b.x1) * wr)
      | _, _ => bbox.map (fun b => (b.x2 - b.x1) * ratio)
    let height := match width_ratio, height_ratio with
      | some _, some hr => bbox.map (fun b => (b.y2 - b.y1) * hr)
      | _, _ => bbox.map (fun b => (b.y2 - b.y1) * ratio)
    let width2 ← match min_width, min_height with
      | some mw, some _ => python_max_np width (bbox.map (fun b => mw - (b.x2 - b.x1)))
      | _, _ => python_max_np width (bbox.map (fun b => min_length - (b.x2 - b.x1)))
    let height2 ← match min_width, min_height with
      | some _, some mh => python_max_np height (bbox.map (fun b => mh - (b.y2 - b.y1)))
      | _, _ => python_max_np height (bbox.map (fun b => min_length - (b.y2 - b.y1)))
    let out := List.zipWith (fun b (wh : ℚ × ℚ) =>
      Box4.mk (b.x1 - wh.1 / 2) (b.y1 - wh.2 / 2) (b.x2 + wh.1 / 2) (b.y2 + wh.2 / 2))
      bbox (width2.zip height2)
    return out

/-- A call to `bbox_enlarge` as a state transformer on the caller's array:
the first component of the pair is the value `return bbox` hands back, the
second is the contents of the caller's array after the call.  They are the
same list, because lines 437-440 update `bbox` in place (`bbox[:, 0] -=
width / 2.0` and so on) and line 442 returns that very array. -/
def bbox_enlarge_run (bbox : List Box4) (ratio : ℚ)
    (width_ratio height_ratio : Option ℚ) (min_length : ℚ)
    (min_width min_height : Option ℚ) :
    Except BoxError (List Box4 × List Box4) :=
  (bbox_enlarge_out bbox ratio width_ratio height_ratio min_length min_width min_height).map
    (fun out => (out, out))

/-- The value `bbox_enlarge` returns. -/
def bbox_enlarge (bbox : List Box4) (ratio : ℚ)
    (width_ratio height_ratio : Option ℚ) (min_length : ℚ)
    (min_width min_height : Option ℚ) : Except BoxError (List Box4) :=
  (bbox_enlarge_run bbox ratio width_ratio height_ratio min_length min_width min_height).map
    Prod.fst

/-- The contents of the caller's array after `bbox_enlarge` returns (the
in-place updates of lines 437-440 land in the input buffer). -/
def bbox_enlarge_input_after (bbox : List Box4) (ratio : ℚ)
    (width_ratio height_ratio : Option ℚ) (min_length : ℚ)
    (min_width min_height : Option ℚ) : Except BoxError (List Box4) :=
  (bbox_enlarge_run bbox ratio width_ratio height_ratio min_length min_width min_height).map
    Prod.snd

/-- A row split into its consecutive 4-column groups: the class slices
`[:, cls_ind * 4 : (cls_ind + 1) * 4]` of `apply_rotation_loose`, and
equally the strided column groups `0::4`/`1::4`/`2::4`/`3::4` of
`bbox_transform_inv` regrouped per class. -/
def chunks4 {α : Type} : List α → List (List α)
  | a :: b :: c :: d :: rest => [a, b, c, d] :: chunks4 rest
  | [] => []
  | l => [l]

/-- Lines 360-379: `apply_rotation_loose` as a state transformer on the
caller's N×4k matrix, parametric in the per-box transform `rot` standing
for `bbox_general2rotated_loose` (lines 324-329) — its line-construction
and coordinate-conversion helpers (`get_line`, `get_intersection`,
`imagecoor2cartesian`, `cartesian2imagecoor`) are external utilities not
under `src/` (spec §6).  Line 367 asserts the column count is a multiple
of 4; the row/class loops (lines 373-377) write each transformed
4-column slice back into `all_boxes` (the slices are disjoint, so each
read slice is still untouched), and line 379 returns that very array, so
the post-state of the input (second component) equals the returned matrix
(first component). -/
def apply_rotation_loose_out (rot : List ℚ → List ℚ)
    (all_boxes : List (List ℚ)) : Except BoxError (List (List ℚ)) :=
  if ¬ all_boxes.all (fun row => decide (row.length % 4 = 0)) then .error .invalidBoxFormat
  else .ok (all_boxes.map (fun row => ((chunks4 row).map rot).flatten))

/-- A call to `apply_rotation_loose` as a state transformer: returned
value and post-state of the input are the same matrix (see
`apply_rotation_loose_out`). -/
def apply_rotation_loose_run (rot : List ℚ → List ℚ)
    (all_boxes : List (List ℚ)) :
    Except BoxError (List (List ℚ) × List (List ℚ)) :=
  (apply_rotation_loose_out rot all_boxes).map (fun out => (out, out))

/-- The value `apply_rotation_loose` returns. -/
def apply_rotation_loose (rot : List ℚ → List ℚ)
    (all_boxes : List (List ℚ)) : Except BoxError (List (List ℚ)) :=
  (apply_rotation_loose_run rot all_boxes).map Prod.fst

/-- The contents of the caller's matrix after `apply_rotation_loose`
returns (line 377 assigns every transformed slice into the input). -/
def apply_rotation_loose_input_after (rot : List ℚ → List ℚ)
    (all_boxes : List (List ℚ)) : Except BoxError (List (List ℚ)) :=
  (apply_rotation_loose_run rot all_boxes).map Prod.snd

/-! ### Regression-target encode/decode (lines 245-298)

The encode/decode pair uses `np.log` and `np.exp`; its rows are embedded
over the real numbers. -/

/-- One row of anchor/target boxes for the regression transform. -/
structure BoxR where
  x1 : ℝ
  y1 : ℝ
  x2 : ℝ
  y2 : ℝ

/-- One 4-column group (dx, dy, dw, dh) of a deltas row. -/
structure DeltaR where
  dx : ℝ
  dy : ℝ
  dw : ℝ
  dh : ℝ

/-- Lines 245-262: `bbox_transform` on one anchor row `ex` and one
ground-truth row `gt`; widths and heights use the inclusive-pixel
convention (+1.0). -/
noncomputable def bbox_transform (ex gt : BoxR) : DeltaR :=
  let ex_widths := ex.x2 - ex.x1 + 1
  let ex_heights := ex.y2 - ex.y1 + 1
  let ex_ctr_x := ex.x1 + 0.5 * ex_widths
  let ex_ctr_y := ex.y1 + 0.5 * ex_heights
  let gt_widths := gt.x2 - gt.x1 + 1
  let gt_heights := gt.y2 - gt.y1 + 1
  let gt_ctr_x := gt.x1 + 0.5 * gt_widths
  let gt_ctr_y := gt.y1 + 0.5 * gt_heights
  ⟨(gt_ctr_x - ex_ctr_x) / ex_widths, (gt_ctr_y - ex_ctr_y) / ex_heights,
   Real.log (gt_widths / ex_widths), Real.log (gt_heights / ex_heights)⟩

/-- Lines 271-297: the per-row, per-4-column-group arithmetic of
`bbox_transform_inv`: predicted center = delta · anchor size + anchor
center, predicted size = exp(delta) · anchor size, then back to corners as
center ± 0.5 · predicted size. -/
noncomputable def bbox_transform_inv_row (b : BoxR) (d : DeltaR) : BoxR :=
  let widths := b.x2 - b.x1 + 1
  let heights := b.y2 - b.y1 + 1
  let ctr_x := b.x1 + 0.5 * widths
  let ctr_y := b.y1 + 0.5 * heights
  let pred_ctr_x := d.dx * widths + ctr_x
  let pred_ctr_y := d.dy * heights + ctr_y
  let pred_w := Real.exp d.dw * widths
  let pred_h := Real.exp d.dh * heights
  ⟨pred_ctr_x - 0.5 * pred_w, pred_ctr_y - 0.5 * pred_h,
   pred_ctr_x + 0.5 * pred_w, pred_ctr_y + 0.5 * pred_h⟩

/-- A deltas (or result) matrix: `np.zeros(deltas.shape)` keeps the column
count even when there are no rows, so the column count is carried
explicitly alongside the rows. -/
structure NPMat where
  ncols : ℕ
  data : List (List ℝ)

/-- One deltas chunk applied to one anchor row, flattened back into the
four result columns (x1, y1, x2, y2) of that class group. -/
noncomputable def inv_row_chunk (b : BoxR) (c : List ℝ) : List ℝ :=
  let r := bbox_transform_inv_row b ⟨c.getD 0 0, c.getD 1 0, c.getD 2 0, c.getD 3 0⟩
  [r.x1, r.y1, r.x2, r.y2]

/-- Lines 264-298: `bbox_transform_inv` at matrix level.  When the anchor
matrix has zero rows it returns `np.zeros((0, deltas.shape[1]))` at once
(before the debug prints, which would index `deltas[0, ...]`); otherwise
every anchor row is combined with every 4-column group of its deltas
row. -/
noncomputable def bbox_transform_inv (boxes : List BoxR) (deltas : NPMat) : NPMat :=
  if boxes.length = 0 then ⟨deltas.ncols, []⟩
  else ⟨deltas.ncols,
        List.zipWith (fun b row => ((chunks4 row).map (inv_row_chunk b)).flatten)
          boxes deltas.data⟩

/-! ### Helper lemmas -/

/-- Clamping with the same monotone map on both ends preserves the TLBR
ordering invariant. -/
lemma clip_core_preserves_TLBR (b : Box4) (W H : ℚ)
    (hx : b.x1 ≤ b.x2) (hy : b.y1 ≤ b.y2) :
    (clip_bboxes_TLBR_core b W H).x1 ≤ (clip_bboxes_TLBR_core b W H).x2 ∧
    (clip_bboxes_TLBR_core b W H).y1 ≤ (clip_bboxes_TLBR_core b W H).y2 := by
  constructor
  · exact max_le_max_right 0 (min_le_min_right W hx)
  · exact max_le_max_right 0 (min_le_min_right H hy)

/-- A valid TLWH box converts to a valid TLBR box. -/
lemma TLWH2TLBR_core_valid (b : Box4) (hb : bboxcheck_TLWH b = true) :
    bboxcheck_TLBR (bbox_TLWH2TLBR_core b) = true := by
  simp [bboxcheck_TLWH] at hb
  simp [bboxcheck_TLBR, bbox_TLWH2TLBR_core]
  constructor <;> linarith [hb.1, hb.2]

/-- Clipping a valid TLBR box yields a valid TLBR box. -/
lemma clip_core_check (b : Box4) (W H : ℚ) (hb : bboxcheck_TLBR b = true) :
    bboxcheck_TLBR (clip_bboxes_TLBR_core b W H) = true := by
  simp [bboxcheck_TLBR] at hb
  have h := clip_core_preserves_TLBR b W H hb.1 hb.2
  simp [bboxcheck_TLBR]
  exact h

/-- The conversion/clip/conversion chain of `clip_bboxes_TLWH` succeeds on
a valid TLWH box and returns the composition of the three core
computations. -/
lemma clip_chain_ok (b : Box4) (W H : ℚ)
    (hb : bboxcheck_TLWH b = true)
    (hW : isinteger W = true) (hH : isinteger H = true) :
    (bbox_TLWH2TLBR b).bind (fun t => (clip_bboxes_TLBR t W H).bind bbox_TLBR2TLWH) =
      .ok (bbox_TLBR2TLWH_core (clip_bboxes_TLBR_core (bbox_TLWH2TLBR_core b) W H)) := by
  have htlbr := TLWH2TLBR_core_valid b hb
  have hclipchk := clip_core_check (bbox_TLWH2TLBR_core b) W H htlbr
  simp [bbox_TLWH2TLBR, hb, clip_bboxes_TLBR, hW, hH, htlbr,
        bbox_TLBR2TLWH, hclipchk, Except.bind]

/-- On a valid TLWH box with valid image dimensions, the checked
`clip_bboxes_TLWH` pipeline succeeds and returns the composition of the
three core computations. -/
lemma clip_bboxes_TLWH_ok (b : Box4) (W H : ℚ)
    (hb : bboxcheck_TLWH b = true)
    (hW : isinteger W = true) (hH : isinteger H = true) :
    clip_bboxes_TLWH b W H =
      .ok (bbox_TLBR2TLWH_core (clip_bboxes_TLBR_core (bbox_TLWH2TLBR_core b) W H)) := by
  have h := clip_chain_ok b W H hb hW hH
  simp only [clip_bboxes_TLWH, hW, hH, hb, Bool.and_self, not_true_eq_false,
             if_false, Bool.not_true]
  exact h

/-- `isinteger` holds exactly on the rationals that are non-negative
integers. -/
lemma isinteger_iff (q : ℚ) :
    isinteger q = true ↔ (∃ n : ℤ, q = (n : ℚ)) ∧ 0 ≤ q := by
  constructor
  · intro h
    simp [isinteger] at h
    refine ⟨⟨q.num, ?_⟩, h.2⟩
    have := h.1
    exact_mod_cast (Rat.den_eq_one_iff q).mp this |>.symm
  · rintro ⟨⟨n, rfl⟩, hq⟩
    simp [isinteger, Rat.den_intCast, hq]

/-- `bbox_enlarge` body on a single valid row, default
ratio/min_length branches. -/
lemma bbox_enlarge_out_single (b : Box4) (ratio min_length : ℚ)
    (hb : bboxcheck_TLBR b = true) :
    bbox_enlarge_out [b] ratio none none min_length none none =
      .ok [Box4.mk
        (b.x1 - max ((b.x2 - b.x1) * ratio) (min_length - (b.x2 - b.x1)) / 2)
        (b.y1 - max ((b.y2 - b.y1) * ratio) (min_length - (b.y2 - b.y1)) / 2)
        (b.x2 + max ((b.x2 - b.x1) * ratio) (min_length - (b.x2 - b.x1)) / 2)
        (b.y2 + max ((b.y2 - b.y1) * ratio) (min_length - (b.y2 - b.y1)) / 2)] := by
  simp [bbox_enlarge_out, python_max_np, hb, bind, Except.bind, pure, Except.pure]

/-- `bbox_enlarge` body on a single valid row, independent
width_ratio/height_ratio and min_width/min_height branches. -/
lemma bbox_enlarge_out_single_indep (b : Box4) (ratio min_length wr hrr mw mh : ℚ)
    (hb : bboxcheck_TLBR b = true) :
    bbox_enlarge_out [b] ratio (some wr) (some hrr) min_length (some mw) (some mh) =
      .ok [Box4.mk
        (b.x1 - max ((b.x2 - b.x1) * wr) (mw - (b.x2 - b.x1)) / 2)
        (b.y1 - max ((b.y2 - b.y1) * hrr) (mh - (b.y2 - b.y1)) / 2)
        (b.x2 + max ((b.x2 - b.x1) * wr) (mw - (b.x2 - b.x1)) / 2)
        (b.y2 + max ((b.y2 - b.y1) * hrr) (mh - (b.y2 - b.y1)) / 2)] := by
  simp [bbox_enlarge_out, python_max_np, hb, bind, Except.bind, pure, Except.pure]

/-- `bbox_enlarge` body at the spec's example input. -/
lemma bbox_enlarge_out_example :
    bbox_enlarge_out [⟨0, 0, 10, 10⟩] 0.2 none none 0 none none =
      .ok [⟨-1, -1, 11, 11⟩] := by
  rw [bbox_enlarge_out_single _ _ _ (by decide)]
  norm_num

/-- `bbox_enlarge` body on two rows: the Python builtin `max` truth-tests
a length-2 comparison array and raises. -/
lemma bbox_enlarge_out_two_rows :
    bbox_enlarge_out [⟨0, 0, 10, 10⟩, ⟨1, 1, 5, 5⟩] 0.2 none none 0 none none =
      .error .ambiguousTruthValue := by
  simp [bbox_enlarge_out, python_max_np, bboxcheck_TLBR, bind, Except.bind,
        pure, Except.pure]

/-- `int64_trunc` is the identity on integers. -/
lemma int64_trunc_intCast (n : ℤ) : int64_trunc (n : ℚ) = n := by
  unfold int64_trunc
  by_cases h : (0:ℚ) ≤ (n : ℚ)
  · simp [h, Int.floor_intCast]
  · simp [h, Int.ceil_intCast]

/-! ### Claims -/

/-- Claim C3: for every valid TLBR box b (x1 ≤ x2, y1 ≤ y2), converting to
TLWH and back is the exact identity, with the forward conversion computing
w = x2 − x1 and h = y2 − y1: `bbox_TLWH2TLBR (bbox_TLBR2TLWH b)` succeeds
and returns exactly b (exact rational arithmetic, no rounding). -/
theorem C3_TLBR_TLWH_roundtrip (b : Box4) (hx : b.x1 ≤ b.x2) (hy : b.y1 ≤ b.y2) :
    bbox_TLBR2TLWH b = .ok (Box4.mk b.x1 b.y1 (b.x2 - b.x1) (b.y2 - b.y1)) ∧
    (bbox_TLBR2TLWH b).bind bbox_TLWH2TLBR = .ok b := by
  have hb : bboxcheck_TLBR b = true := by
    simp [bboxcheck_TLBR]; exact ⟨hx, hy⟩
  have hw : bboxcheck_TLWH (bbox_TLBR2TLWH_core b) = true := by
    simp [bboxcheck_TLWH, bbox_TLBR2TLWH_core]
    constructor <;> linarith
  have h1 : bbox_TLBR2TLWH b = .ok (bbox_TLBR2TLWH_core b) := by
    simp [bbox_TLBR2TLWH, hb]
  have h2 : bbox_TLWH2TLBR (bbox_TLBR2TLWH_core b) =
      .ok (bbox_TLWH2TLBR_core (bbox_TLBR2TLWH_core b)) := by
    simp [bbox_TLWH2TLBR, hw]
  have h3 : bbox_TLWH2TLBR_core (bbox_TLBR2TLWH_core b) = b := by
    cases b
    simp only [bbox_TLBR2TLWH_core, bbox_TLWH2TLBR_core, Box4.mk.injEq]
    refine ⟨trivial, trivial, by ring, by ring⟩
  constructor
  · simpa [bbox_TLBR2TLWH_core] using h1
  · rw [h1]
    show bbox_TLWH2TLBR (bbox_TLBR2TLWH_core b) = .ok b
    rw [h2, h3]

/-- Witness for C3 at the spec's example box [5, 5, 10, 10]. -/
theorem C3_TLBR_TLWH_roundtrip_witness :
    (5:ℚ) ≤ 10 ∧
    (bbox_TLBR2TLWH ⟨5, 5, 10, 10⟩).bind bbox_TLWH2TLBR = .ok ⟨5, 5, 10, 10⟩ :=
  ⟨by norm_num, (C3_TLBR_TLWH_roundtrip ⟨5, 5, 10, 10⟩ (by norm_num) (by norm_num)).2⟩

/-- Claim C4 is false on the code for odd integer dimensions: at crop
size (2, 2) in a 5×5 image, Python 2 computes `np.ceil(5 / 2)` as
`np.ceil(2)` = 2, so the produced top-left coordinate is 2 − 1 = 1,
whereas the claimed ceil-based centering ⌈5/2⌉ − ⌈2/2⌉ gives 2. -/
theorem C4_center_crop_cex :
    (get_center_crop_bbox2 2 2 5 5).1 = 1 ∧
    ⌈(5 : ℚ) / 2⌉ - ⌈(2 : ℚ) / 2⌉ = 2 ∧ (1 : ℤ) ≠ 2 := by
  refine ⟨?_, ?_, by decide⟩
  · have hW : ⌊(5 : ℚ) / 2⌋ = 2 := by norm_num
    have hc : ⌊(2 : ℚ) / 2⌋ = 1 := by norm_num
    simp only [get_center_crop_bbox2, py2_idiv, hW, hc, Int.ceil_intCast]
    norm_num [int64_trunc]
  · have h5 : ⌈(5 : ℚ) / 2⌉ = 3 := by
      rw [Int.ceil_eq_iff]
      norm_num
    have h1 : ⌈(2 : ℚ) / 2⌉ = 1 := by
      rw [Int.ceil_eq_iff]
      norm_num
    rw [h5, h1]
    decide

/-- Claim C4 amended: in the 2-element branch with integer-typed image
dimensions and crop sizes, the crop center is (⌊W/2⌋, ⌊H/2⌋) — Python 2
floor-divides before `np.ceil`, so the ceil is the identity — the output
top-left is center − ⌊crop_size/2⌋ on each axis, and the result is a TLWH
row of integers; the claimed ⌈·⌉ formula holds only where flooring does
not change the quotient (even values). -/
theorem C4_center_crop_floor (crop_w crop_h W H : ℤ) :
    get_center_crop_bbox2 crop_w crop_h W H =
      (⌊(W : ℚ) / 2⌋ - ⌊(crop_w : ℚ) / 2⌋, ⌊(H : ℚ) / 2⌋ - ⌊(crop_h : ℚ) / 2⌋,
       crop_w, crop_h) := by
  unfold get_center_crop_bbox2 py2_idiv
  simp only [Int.ceil_intCast, Int.cast_ofNat]
  have h1 : ((⌊(W : ℚ) / 2⌋ : ℤ) : ℚ) - ((⌊(crop_w : ℚ) / 2⌋ : ℤ) : ℚ) =
      ((⌊(W : ℚ) / 2⌋ - ⌊(crop_w : ℚ) / 2⌋ : ℤ) : ℚ) := by push_cast; ring
  have h2 : ((⌊(H : ℚ) / 2⌋ : ℤ) : ℚ) - ((⌊(crop_h : ℚ) / 2⌋ : ℤ) : ℚ) =
      ((⌊(H : ℚ) / 2⌋ - ⌊(crop_h : ℚ) / 2⌋ : ℤ) : ℚ) := by push_cast; ring
  simp only [h1, h2, int64_trunc_intCast]

/-- Claim C5: with W ≥ 0 and H ≥ 0, every coordinate of the clipped box
lies in [0, W] (x) and [0, H] (y); the concrete example
clip([-3,-2,50,60], 40, 40) = [0,0,40,40] holds through the checked
function; and a box entirely beyond any image edge collapses to that
boundary (zero area) while the checked function still succeeds, rather
than raising. -/
theorem C5_clip_TLBR_bounds (b : Box4) (W H : ℚ) (hW : 0 ≤ W) (hH : 0 ≤ H) :
    (0 ≤ (clip_bboxes_TLBR_core b W H).x1 ∧ (clip_bboxes_TLBR_core b W H).x1 ≤ W ∧
     0 ≤ (clip_bboxes_TLBR_core b W H).y1 ∧ (clip_bboxes_TLBR_core b W H).y1 ≤ H ∧
     0 ≤ (clip_bboxes_TLBR_core b W H).x2 ∧ (clip_bboxes_TLBR_core b W H).x2 ≤ W ∧
     0 ≤ (clip_bboxes_TLBR_core b W H).y2 ∧ (clip_bboxes_TLBR_core b W H).y2 ≤ H) ∧
    clip_bboxes_TLBR ⟨-3, -2, 50, 60⟩ 40 40 = .ok ⟨0, 0, 40, 40⟩ ∧
    (b.x1 ≤ b.x2 → b.x2 ≤ 0 →
      (clip_bboxes_TLBR_core b W H).x1 = 0 ∧ (clip_bboxes_TLBR_core b W H).x2 = 0) ∧
    (b.x1 ≤ b.x2 → W ≤ b.x1 →
      (clip_bboxes_TLBR_core b W H).x1 = W ∧ (clip_bboxes_TLBR_core b W H).x2 = W) ∧
    (b.y1 ≤ b.y2 → b.y2 ≤ 0 →
      (clip_bboxes_TLBR_core b W H).y1 = 0 ∧ (clip_bboxes_TLBR_core b W H).y2 = 0) ∧
    (b.y1 ≤ b.y2 → H ≤ b.y1 →
      (clip_bboxes_TLBR_core b W H).y1 = H ∧ (clip_bboxes_TLBR_core b W H).y2 = H) ∧
    (bboxcheck_TLBR b = true → isinteger W = true → isinteger H = true →
      clip_bboxes_TLBR b W H = .ok (clip_bboxes_TLBR_core b W H)) := by
  refine ⟨⟨le_max_right _ 0, max_le (min_le_right _ W) hW,
          le_max_right _ 0, max_le (min_le_right _ H) hH,
          le_max_right _ 0, max_le (min_le_right _ W) hW,
          le_max_right _ 0, max_le (min_le_right _ H) hH⟩,
         by simp [clip_bboxes_TLBR, clip_bboxes_TLBR_core, isinteger, bboxcheck_TLBR]; norm_num,
         ?_, ?_, ?_, ?_, ?_⟩
  · intro hx h0
    constructor
    · show max (min b.x1 W) 0 = 0
      exact max_eq_right (le_trans (min_le_left _ _) (le_trans hx h0))
    · show max (min b.x2 W) 0 = 0
      exact max_eq_right (le_trans (min_le_left _ _) h0)
  · intro hx hWx
    constructor
    · show max (min b.x1 W) 0 = W
      rw [min_eq_right hWx]
      exact max_eq_left hW
    · show max (min b.x2 W) 0 = W
      rw [min_eq_right (le_trans hWx hx)]
      exact max_eq_left hW
  · intro hy h0
    constructor
    · show max (min b.y1 H) 0 = 0
      exact max_eq_right (le_trans (min_le_left _ _) (le_trans hy h0))
    · show max (min b.y2 H) 0 = 0
      exact max_eq_right (le_trans (min_le_left _ _) h0)
  · intro hy hHy
    constructor
    · show max (min b.y1 H) 0 = H
      rw [min_eq_right hHy]
      exact max_eq_left hH
    · show max (min b.y2 H) 0 = H
      rw [min_eq_right (le_trans hHy hy)]
      exact max_eq_left hH
  · intro hb hWi hHi
    simp [clip_bboxes_TLBR, hWi, hHi, hb]

/-- Witness for C5 at the spec's concrete input with W = H = 40. -/
theorem C5_clip_TLBR_bounds_witness :
    (0:ℚ) ≤ 40 ∧
    clip_bboxes_TLBR ⟨-3, -2, 50, 60⟩ 40 40 = .ok ⟨0, 0, 40, 40⟩ :=
  ⟨by norm_num, (C5_clip_TLBR_bounds ⟨-3, -2, 50, 60⟩ 40 40 (by norm_num) (by norm_num)).2.1⟩

/-- Claim C6: both clipping functions return `InvalidImageSize` exactly
when some image dimension is not a non-negative integer; the check is the
first thing either function runs, so no clipping result is produced in
that case (the error is the whole output). -/
theorem C6_invalid_image_size_iff (b : Box4) (W H : ℚ) :
    (clip_bboxes_TLBR b W H = .error .invalidImageSize ↔
      ¬ (((∃ n : ℤ, W = (n : ℚ)) ∧ 0 ≤ W) ∧ ((∃ n : ℤ, H = (n : ℚ)) ∧ 0 ≤ H))) ∧
    (clip_bboxes_TLWH b W H = .error .invalidImageSize ↔
      ¬ (((∃ n : ℤ, W = (n : ℚ)) ∧ 0 ≤ W) ∧ ((∃ n : ℤ, H = (n : ℚ)) ∧ 0 ≤ H))) := by
  have hWiff := isinteger_iff W
  have hHiff := isinteger_iff H
  by_cases hW : isinteger W = true <;> by_cases hH : isinteger H = true
  · have hsem : ((∃ n : ℤ, W = (n : ℚ)) ∧ 0 ≤ W) ∧ ((∃ n : ℤ, H = (n : ℚ)) ∧ 0 ≤ H) :=
      ⟨hWiff.mp hW, hHiff.mp hH⟩
    constructor
    · constructor
      · intro habs
        by_cases hb : bboxcheck_TLBR b = true
        · simp [clip_bboxes_TLBR, hW, hH, hb] at habs
        · simp [clip_bboxes_TLBR, hW, hH, hb] at habs
      · intro habs; exact absurd hsem habs
    · constructor
      · intro habs
        by_cases hb : bboxcheck_TLWH b = true
        · rw [clip_bboxes_TLWH_ok b W H hb hW hH] at habs
          exact Except.noConfusion habs
        · simp [clip_bboxes_TLWH, hW, hH, hb] at habs
      · intro habs; exact absurd hsem habs
  · have hsem : ¬ (((∃ n : ℤ, W = (n : ℚ)) ∧ 0 ≤ W) ∧ ((∃ n : ℤ, H = (n : ℚ)) ∧ 0 ≤ H)) := by
      intro hc; exact hH (hHiff.mpr hc.2)
    refine ⟨⟨fun _ => hsem, fun _ => ?_⟩, ⟨fun _ => hsem, fun _ => ?_⟩⟩
    · simp [clip_bboxes_TLBR, hH]
    · simp [clip_bboxes_TLWH, hH]
  · have hsem : ¬ (((∃ n : ℤ, W = (n : ℚ)) ∧ 0 ≤ W) ∧ ((∃ n : ℤ, H = (n : ℚ)) ∧ 0 ≤ H)) := by
      intro hc; exact hW (hWiff.mpr hc.1)
    refine ⟨⟨fun _ => hsem, fun _ => ?_⟩, ⟨fun _ => hsem, fun _ => ?_⟩⟩
    · simp [clip_bboxes_TLBR, hW]
    · simp [clip_bboxes_TLWH, hW]
  · have hsem : ¬ (((∃ n : ℤ, W = (n : ℚ)) ∧ 0 ≤ W) ∧ ((∃ n : ℤ, H = (n : ℚ)) ∧ 0 ≤ H)) := by
      intro hc; exact hW (hWiff.mpr hc.1)
    refine ⟨⟨fun _ => hsem, fun _ => ?_⟩, ⟨fun _ => hsem, fun _ => ?_⟩⟩
    · simp [clip_bboxes_TLBR, hW]
    · simp [clip_bboxes_TLWH, hW]

/-- Claim C7: on a valid TLWH box with valid image dimensions,
`clip_bboxes_TLWH` equals the composition convert-to-TLBR, clip,
convert-back — both as the checked pipeline and as the plain core
composition. -/
theorem C7_clip_TLWH_eq_composition (b : Box4) (W H : ℚ)
    (hb : bboxcheck_TLWH b = true)
    (hW : isinteger W = true) (hH : isinteger H = true) :
    clip_bboxes_TLWH b W H =
      (bbox_TLWH2TLBR b).bind (fun t => (clip_bboxes_TLBR t W H).bind bbox_TLBR2TLWH) ∧
    clip_bboxes_TLWH b W H =
      .ok (bbox_TLBR2TLWH_core (clip_bboxes_TLBR_core (bbox_TLWH2TLBR_core b) W H)) := by
  constructor
  · rw [clip_bboxes_TLWH_ok b W H hb hW hH, clip_chain_ok b W H hb hW hH]
  · exact clip_bboxes_TLWH_ok b W H hb hW hH

/-- Witness for C7 at a concrete valid TLWH box and a 40×40 image. -/
theorem C7_clip_TLWH_eq_composition_witness :
    bboxcheck_TLWH ⟨-3, 5, 50, 60⟩ = true ∧
    clip_bboxes_TLWH ⟨-3, 5, 50, 60⟩ 40 40 =
      .ok (bbox_TLBR2TLWH_core (clip_bboxes_TLBR_core (bbox_TLWH2TLBR_core ⟨-3, 5, 50, 60⟩) 40 40)) :=
  ⟨by decide,
   (C7_clip_TLWH_eq_composition ⟨-3, 5, 50, 60⟩ 40 40 (by decide) (by decide) (by decide)).2⟩

/-- Claim C10: clipping preserves the TLBR ordering invariant: for a valid
input box and W, H ≥ 0 the clipped box again satisfies x1 ≤ x2 and
y1 ≤ y2, has non-negative width and height, and passes `bboxcheck_TLBR`. -/
theorem C10_clip_preserves_TLBR (b : Box4) (W H : ℚ)
    (hx : b.x1 ≤ b.x2) (hy : b.y1 ≤ b.y2) (hW : 0 ≤ W) (hH : 0 ≤ H) :
    (clip_bboxes_TLBR_core b W H).x1 ≤ (clip_bboxes_TLBR_core b W H).x2 ∧
    (clip_bboxes_TLBR_core b W H).y1 ≤ (clip_bboxes_TLBR_core b W H).y2 ∧
    0 ≤ (clip_bboxes_TLBR_core b W H).x2 - (clip_bboxes_TLBR_core b W H).x1 ∧
    0 ≤ (clip_bboxes_TLBR_core b W H).y2 - (clip_bboxes_TLBR_core b W H).y1 ∧
    bboxcheck_TLBR (clip_bboxes_TLBR_core b W H) = true := by
  have h := clip_core_preserves_TLBR b W H hx hy
  refine ⟨h.1, h.2, by linarith [h.1], by linarith [h.2], ?_⟩
  simp [bboxcheck_TLBR]
  exact h

/-- Witness for C10 at a box crossing both image borders of a 7×9 image. -/
theorem C10_clip_preserves_TLBR_witness :
    (-4:ℚ) ≤ 11 ∧
    (clip_bboxes_TLBR_core ⟨-4, -6, 11, 12⟩ 7 9).x1 ≤ (clip_bboxes_TLBR_core ⟨-4, -6, 11, 12⟩ 7 9).x2 ∧
    bboxcheck_TLBR (clip_bboxes_TLBR_core ⟨-4, -6, 11, 12⟩ 7 9) = true :=
  ⟨by norm_num,
   (C10_clip_preserves_TLBR ⟨-4, -6, 11, 12⟩ 7 9 (by norm_num) (by norm_num) (by norm_num) (by norm_num)).1,
   (C10_clip_preserves_TLBR ⟨-4, -6, 11, 12⟩ 7 9 (by norm_num) (by norm_num) (by norm_num) (by norm_num)).2.2.2.2⟩

/-- Claim C2 is false on the code: `bbox_enlarge` does not leave its input
unchanged.  At input [[0,0,10,10]] with ratio 0.2 and min_length 0 the
call succeeds and the caller's array afterwards holds [[-1,-1,11,11]],
which differs from the original values. -/
theorem C2_input_mutated_cex :
    bbox_enlarge_input_after [⟨0, 0, 10, 10⟩] 0.2 none none 0 none none =
      .ok [⟨-1, -1, 11, 11⟩] ∧
    [Box4.mk (-1) (-1) 11 11] ≠ [Box4.mk 0 0 10 10] := by
  constructor
  · simp [bbox_enlarge_input_after, bbox_enlarge_run, bbox_enlarge_out_example, Except.map]
  · decide

/-- Claim C2 amended: `bbox_enlarge` and `apply_rotation_loose` write the
transformed values into the input array in place and return that same
array, so after a call the input holds exactly the returned values: for
every input the post-state of the input equals the returned matrix, the
spec's example call leaves [[-1,-1,11,11]] in the caller's array instead
of the original [[0,0,10,10]], and a sample per-box transform exhibits
the same overwrite for `apply_rotation_loose`. -/
theorem C2_in_place_mutation :
    (∀ (bbox : List Box4) (ratio : ℚ) (wr hr : Option ℚ) (ml : ℚ) (mw mh : Option ℚ),
      bbox_enlarge_input_after bbox ratio wr hr ml mw mh =
        bbox_enlarge bbox ratio wr hr ml mw mh) ∧
    (∀ (rot : List ℚ → List ℚ) (all_boxes : List (List ℚ)),
      apply_rotation_loose_input_after rot all_boxes =
        apply_rotation_loose rot all_boxes) ∧
    bbox_enlarge_input_after [⟨0, 0, 10, 10⟩] 0.2 none none 0 none none =
      .ok [⟨-1, -1, 11, 11⟩] ∧
    apply_rotation_loose_input_after (fun r => r.map (fun q => -q)) [[1, 2, 3, 4]] =
      .ok [[-1, -2, -3, -4]] ∧
    ([[-1, -2, -3, -4]] : List (List ℚ)) ≠ [[1, 2, 3, 4]] := by
  refine ⟨fun bbox ratio wr hr ml mw mh => ?_, fun rot all_boxes => ?_, ?_, ?_, by decide⟩
  · unfold bbox_enlarge_input_after bbox_enlarge bbox_enlarge_run
    cases bbox_enlarge_out bbox ratio wr hr ml mw mh <;> rfl
  · unfold apply_rotation_loose_input_after apply_rotation_loose apply_rotation_loose_run
    cases apply_rotation_loose_out rot all_boxes <;> rfl
  · simp [bbox_enlarge_input_after, bbox_enlarge_run, bbox_enlarge_out_example, Except.map]
  · simp [apply_rotation_loose_input_after, apply_rotation_loose_run,
          apply_rotation_loose_out, chunks4, Except.map]

/-- Claim C9 is false for matrices of more than one row: the builtin
`max` on the length-2 width arrays raises `ValueError` instead of growing
each box, so the result is not the enlarged boxes. -/
theorem C9_two_rows_cex :
    bbox_enlarge [⟨0, 0, 10, 10⟩, ⟨1, 1, 5, 5⟩] 0.2 none none 0 none none =
      .error .ambiguousTruthValue ∧
    bbox_enlarge [⟨0, 0, 10, 10⟩, ⟨1, 1, 5, 5⟩] 0.2 none none 0 none none ≠
      .ok [⟨-1, -1, 11, 11⟩, ⟨0.6, 0.6, 5.4, 5.4⟩] := by
  have h : bbox_enlarge [⟨0, 0, 10, 10⟩, ⟨1, 1, 5, 5⟩] 0.2 none none 0 none none =
      .error .ambiguousTruthValue := by
    simp [bbox_enlarge, bbox_enlarge_run, bbox_enlarge_out_two_rows, Except.map]
  refine ⟨h, ?_⟩
  rw [h]
  intro hc
  exact Except.noConfusion hc

/-- Claim C9 amended: for a single valid TLBR row, `bbox_enlarge` grows
the box symmetrically — the extra amount per axis is current size × ratio
(or the independent `width_ratio`/`height_ratio`), floored at minimum −
current size (`min_length`, or the independent `min_width`/`min_height`),
half subtracted from the low edge and half added to the high edge; with
two or more rows the Python builtin `max` raises instead.  The concrete
example `bbox_enlarge([[0,0,10,10]], ratio=0.2, min_length=0) ==
[[-1,-1,11,11]]` holds. -/
theorem C9_enlarge_single_row (b : Box4) (ratio min_length : ℚ)
    (hb : bboxcheck_TLBR b = true) :
    bbox_enlarge [b] ratio none none min_length none none =
      .ok [Box4.mk
        (b.x1 - max ((b.x2 - b.x1) * ratio) (min_length - (b.x2 - b.x1)) / 2)
        (b.y1 - max ((b.y2 - b.y1) * ratio) (min_length - (b.y2 - b.y1)) / 2)
        (b.x2 + max ((b.x2 - b.x1) * ratio) (min_length - (b.x2 - b.x1)) / 2)
        (b.y2 + max ((b.y2 - b.y1) * ratio) (min_length - (b.y2 - b.y1)) / 2)] ∧
    (∀ wr hrr mw mh : ℚ,
      bbox_enlarge [b] ratio (some wr) (some hrr) min_length (some mw) (some mh) =
        .ok [Box4.mk
          (b.x1 - max ((b.x2 - b.x1) * wr) (mw - (b.x2 - b.x1)) / 2)
          (b.y1 - max ((b.y2 - b.y1) * hrr) (mh - (b.y2 - b.y1)) / 2)
          (b.x2 + max ((b.x2 - b.x1) * wr) (mw - (b.x2 - b.x1)) / 2)
          (b.y2 + max ((b.y2 - b.y1) * hrr) (mh - (b.y2 - b.y1)) / 2)]) ∧
    bbox_enlarge [⟨0, 0, 10, 10⟩] 0.2 none none 0 none none = .ok [⟨-1, -1, 11, 11⟩] := by
  refine ⟨?_, fun wr hrr mw mh => ?_, ?_⟩
  · simp [bbox_enlarge, bbox_enlarge_run, bbox_enlarge_out_single b ratio min_length hb,
          Except.map]
  · simp [bbox_enlarge, bbox_enlarge_run,
          bbox_enlarge_out_single_indep b ratio min_length wr hrr mw mh hb, Except.map]
  · simp [bbox_enlarge, bbox_enlarge_run, bbox_enlarge_out_example, Except.map]

/-- Witness for C9 at the spec's concrete example. -/
theorem C9_enlarge_single_row_witness :
    bboxcheck_TLBR ⟨0, 0, 10, 10⟩ = true ∧
    bbox_enlarge [⟨0, 0, 10, 10⟩] 0.2 none none 0 none none = .ok [⟨-1, -1, 11, 11⟩] :=
  ⟨by decide, (C9_enlarge_single_row ⟨0, 0, 10, 10⟩ 0.2 0 (by decide)).2.2⟩

/-- Claim C1 is false on the code: decoding the encoding of anchor
a = target t = [0,0,1,1] yields 2 for the x2 coordinate — off from
t.x2 = 1 by a whole pixel, far beyond the 1e-5 tolerance (the decode step
omits the −1 that would invert the inclusive +1 width convention). -/
theorem C1_roundtrip_cex :
    ¬ |(bbox_transform_inv_row ⟨0, 0, 1, 1⟩
         (bbox_transform ⟨0, 0, 1, 1⟩ ⟨0, 0, 1, 1⟩)).x2 - 1| ≤ 1e-5 := by
  have h : (bbox_transform_inv_row ⟨0, 0, 1, 1⟩
      (bbox_transform ⟨0, 0, 1, 1⟩ ⟨0, 0, 1, 1⟩)).x2 = 2 := by
    simp only [bbox_transform, bbox_transform_inv_row]
    norm_num
  rw [h]
  norm_num

/-- Claim C1 amended: for every anchor with positive (inclusive) width and
height and every valid TLBR target, decoding the encoding reproduces the
target's x1 and y1 exactly while producing x2 + 1 and y2 + 1 for the
bottom-right corner: the round trip is exact up to a constant +1 bias on
x2 and y2 (so the 1e-5-tolerance claim holds for the top-left coordinates
only). -/
theorem C1_decode_encode (ex gt : BoxR)
    (hw : 0 < ex.x2 - ex.x1 + 1) (hh : 0 < ex.y2 - ex.y1 + 1)
    (hgx : gt.x1 ≤ gt.x2) (hgy : gt.y1 ≤ gt.y2) :
    bbox_transform_inv_row ex (bbox_transform ex gt) =
      ⟨gt.x1, gt.y1, gt.x2 + 1, gt.y2 + 1⟩ := by
  have hgw : (0:ℝ) < gt.x2 - gt.x1 + 1 := by linarith
  have hgh : (0:ℝ) < gt.y2 - gt.y1 + 1 := by linarith
  have hew : ex.x2 - ex.x1 + 1 ≠ 0 := ne_of_gt hw
  have heh : ex.y2 - ex.y1 + 1 ≠ 0 := ne_of_gt hh
  have e1 : Real.exp (Real.log ((gt.x2 - gt.x1 + 1) / (ex.x2 - ex.x1 + 1))) =
      (gt.x2 - gt.x1 + 1) / (ex.x2 - ex.x1 + 1) := Real.exp_log (div_pos hgw hw)
  have e2 : Real.exp (Real.log ((gt.y2 - gt.y1 + 1) / (ex.y2 - ex.y1 + 1))) =
      (gt.y2 - gt.y1 + 1) / (ex.y2 - ex.y1 + 1) := Real.exp_log (div_pos hgh hh)
  simp only [bbox_transform, bbox_transform_inv_row, e1, e2, BoxR.mk.injEq]
  refine ⟨?_, ?_, ?_, ?_⟩ <;> field_simp <;> ring

/-- Witness for C1 at anchor = target = [0,0,1,1]: the round trip yields
(0, 0, 2, 2). -/
theorem C1_decode_encode_witness :
    (0:ℝ) < 1 - 0 + 1 ∧ (0:ℝ) ≤ 1 ∧
    bbox_transform_inv_row ⟨0, 0, 1, 1⟩ (bbox_transform ⟨0, 0, 1, 1⟩ ⟨0, 0, 1, 1⟩) =
      ⟨0, 0, 1 + 1, 1 + 1⟩ :=
  ⟨by norm_num, by norm_num,
   C1_decode_encode ⟨0, 0, 1, 1⟩ ⟨0, 0, 1, 1⟩
     (by norm_num) (by norm_num) (by norm_num) (by norm_num)⟩

/-- Claim C8: when the anchor matrix has zero rows, `bbox_transform_inv`
returns a zero-row matrix whose column count equals the column count of
the deltas matrix; the embedded function is total, matching the source's
immediate early return (reached before anything touches `deltas`'s
rows). -/
theorem C8_empty_anchor (boxes : List BoxR) (deltas : NPMat)
    (h : boxes.length = 0) :
    (bbox_transform_inv boxes deltas).data.length = 0 ∧
    (bbox_transform_inv boxes deltas).ncols = deltas.ncols := by
  simp [bbox_transform_inv, h]

/-- Witness for C8 with an empty anchor list and an 8-column deltas
matrix. -/
theorem C8_empty_anchor_witness :
    List.length ([] : List BoxR) = 0 ∧
    (bbox_transform_inv [] ⟨8, []⟩).data.length = 0 ∧
    (bbox_transform_inv [] ⟨8, []⟩).ncols = 8 :=
  ⟨rfl, C8_empty_anchor [] ⟨8, []⟩ rfl⟩

end BboxTransform
